import Mathlib

/-!
# Verification of `lensy.py`

A shallow embedding of the directory-summary tool `lensy.py` and proofs of
its specified properties.

The program shells out to `git` and reads the filesystem, so the embedding
makes the external world explicit:

* `GitEnv` records, for each of the four git queries the program issues, the
  raw stdout of the query when it exits with status 0, and `none` when it
  exits non-zero (`run_git` returns `None` exactly on a non-zero exit).
* `FSNode` is a snapshot of a filesystem tree: a file with a byte size, or a
  directory with a list of named children.
* `Env` bundles the git oracle, the children of the resolved root path, the
  rendered root path string, and whether the root exists / is a directory.

Python-specific semantics that the source relies on are modelled explicitly:
`str.strip()` (`pyStrip`), the truthiness of `x or d` on optional strings
(`pyOr`), and `f"{v:.1f}"` on `size / 1024` (`formatKB`; `size / 1024` is an
exact binary float for any size below 2^53, and `:.1f` rounds the exact value
half-to-even, which `formatKB` reproduces in exact integer arithmetic).
-/

/-- Characters stripped by Python's `str.strip()` with no argument:
ASCII whitespace, the C1 separators, and the Unicode space characters
(category Zs together with U+2028 and U+2029). -/
def isPySpace (c : Char) : Bool :=
  c = ' ' || c = '\t' || c = '\n' || c = '\r' || c = '\x0b' || c = '\x0c' ||
  ('\x1c' ≤ c && c ≤ '\x1f') || c = '\x85' || c = '\xa0' || c = ' ' ||
  (' ' ≤ c && c ≤ ' ') || c = ' ' || c = ' ' ||
  c = ' ' || c = ' ' || c = '　'

/-- Python `s.strip()`: remove leading and trailing whitespace. -/
def pyStrip (s : String) : String :=
  ⟨((s.data.dropWhile isPySpace).reverse.dropWhile isPySpace).reverse⟩

/-- Python `x or dflt` where `x : Optional[str]`: `None` and the empty
string are falsy, any other string is returned unchanged. -/
def pyOr (x : Option String) (dflt : String) : String :=
  match x with
  | none => dflt
  | some s => if s = "" then dflt else s

/-- Outcome of the four `git` subprocess invocations the program can issue,
for a fixed working directory: the raw stdout when the query exits 0,
`none` when it exits non-zero. -/
structure GitEnv where
  branch_q : Option String
  log_q : Option String
  status_q : Option String
  remote_q : Option String
deriving Repr, DecidableEq

/-- `run_git(args, cwd)`: `None` on a non-zero exit, otherwise
`result.stdout.strip()`. The subprocess outcome is taken from the oracle
field corresponding to `args`. -/
def run_git (raw : Option String) : Option String :=
  raw.map pyStrip

/-- The dataclass `GitInfo`. -/
structure GitInfo where
  branch : String
  latest_commit : String
  dirty : Bool
  remote : Option String
deriving Repr, DecidableEq

/-- `collect_git_info`: `None` when the branch query fails; otherwise the
latest commit defaults to `"n/a"`, the status output defaults to `""`,
`dirty = bool(status_output.strip())`, and the remote stays optional. -/
def collect_git_info (g : GitEnv) : Option GitInfo :=
  match run_git g.branch_q with
  | none => none
  | some branch =>
    let latest_commit := pyOr (run_git g.log_q) "n/a"
    let status_output := pyOr (run_git g.status_q) ""
    let dirty := pyStrip status_output ≠ ""
    let remote := run_git g.remote_q
    some { branch := branch, latest_commit := latest_commit,
           dirty := decide dirty, remote := remote }

/-- Snapshot of a filesystem subtree: a regular file with its byte size, or
a directory with its named children (in unspecified order, as `iterdir`
yields them). -/
inductive FSNode where
  | file (size : Nat)
  | dir (children : List (String × FSNode))

/-- `path.is_dir()` on a snapshot node. -/
def FSNode.isDir : FSNode → Bool
  | .file _ => false
  | .dir _ => true

/-- Python string `<=`: lexicographic comparison of code points, as used by
`sorted` on the paths returned by `iterdir` (paths sharing a parent compare
by their final component). -/
def lexLe : List Char → List Char → Bool
  | [], _ => true
  | _ :: _, [] => false
  | a :: as, b :: bs =>
    if a.toNat < b.toNat then true
    else if b.toNat < a.toNat then false
    else lexLe as bs

/-- Name order on directory entries. -/
def nameLe (a b : String × FSNode) : Bool :=
  lexLe a.1.data b.1.data

/-- `f"{size / 1024:.1f}"`: the float `size / 1024` is exact for
`size < 2^53`, and `:.1f` rounds it half-to-even to one decimal place;
this computes the same digits with integers (`size * 10 / 1024`,
rounding ties to even). -/
def formatKB (size : Nat) : String :=
  let n := size * 10
  let q := n / 1024
  let r := n % 1024
  let rounded :=
    if 512 < r then q + 1
    else if r < 512 then q
    else if q % 2 = 0 then q else q + 1
  toString (rounded / 10) ++ "." ++ toString (rounded % 10)

/-- `collect_file_overview`: iterate over `sorted(root.iterdir())`, skip a
child named `".git"`, append `name + "/"` for a directory and
`name + " (X.Y KB)"` for anything else. -/
def collect_file_overview (cs : List (String × FSNode)) : List String :=
  List.foldl
    (fun entries e =>
      if e.1 = ".git" then entries
      else
        match e.2 with
        | FSNode.dir _ => entries ++ [e.1 ++ "/"]
        | FSNode.file size => entries ++ [e.1 ++ " (" ++ formatKB size ++ " KB)"])
    [] (List.mergeSort cs nameLe)

/-- The `{"files": _, "dirs": _}` dictionary built by `collect_stats`. -/
structure Stats where
  files : Nat
  dirs : Nat
deriving Repr, DecidableEq

/-- One `os.walk` traversal, accumulated over a list of children of some
directory: at each directory level `dirnames` is filtered to drop `".git"`,
the surviving directory and file names are counted, and the walk recurses
into exactly the surviving directories. The per-level sums of the source's
`for` loop are reassociated into one structural recursion; the totals
agree because addition is commutative and associative. -/
def statsList : List (String × FSNode) → Stats
  | [] => ⟨0, 0⟩
  | (_, FSNode.file _) :: rest =>
    let r := statsList rest
    ⟨r.files + 1, r.dirs⟩
  | (name, FSNode.dir cs) :: rest =>
    let r := statsList rest
    if name = ".git" then r
    else
      let s := statsList cs
      ⟨r.files + s.files, r.dirs + s.dirs + 1⟩

/-- `collect_stats(root)` for a root directory with children `cs`. -/
def collect_stats (cs : List (String × FSNode)) : Stats :=
  statsList cs

/-- The world as one invocation of the program sees it: the resolved root
path string, whether it exists and is a directory, the git oracle for that
working directory, and the root's children. -/
structure Env where
  root : String
  rootExists : Bool
  rootIsDir : Bool
  git : GitEnv
  fs : List (String × FSNode)

/-- The `lines` list built by `format_summary` (joined with `"\n"` at the
end of the function). -/
def format_summary_lines (g : Option GitInfo) (file_listing : List String)
    (stats : Stats) (root : String) : List String :=
  (("Path: " ++ root) ::
    (match g with
     | some gi =>
       ["Branch: " ++ gi.branch,
        "Latest commit: " ++ gi.latest_commit,
        "Remote: " ++ pyOr gi.remote "n/a",
        "Working tree: " ++ (if gi.dirty then "dirty" else "clean")]
     | none => ["Git: n/a (not a repository)"])) ++
  ("" ::
    ("Contents: " ++ toString stats.files ++ " files in " ++
      toString stats.dirs ++ " directories") ::
    file_listing.map (fun entry => "  - " ++ entry))

/-- The `lines` list of `format_summary(root)`: run the three collectors on
the root, then compose the report. -/
def summary_lines (env : Env) : List String :=
  format_summary_lines (collect_git_info env.git) (collect_file_overview env.fs)
    (collect_stats env.fs) env.root

/-- `format_summary(root)`: the composed report joined with `"\n"`. -/
def format_summary (env : Env) : String :=
  String.intercalate "\n" (summary_lines env)

/-- Observable collection effects of one run: a `git` subprocess invocation
with the root as working directory, a `root.iterdir()` call, an
`os.walk(root)` traversal. -/
inductive Ev where
  | gitCall
  | listCall
  | walkCall
deriving Repr, DecidableEq

/-- The one OS-level failure mode modelled here: `NotADirectoryError`
(errno 20), raised when a process working directory or a listed path is not
a directory. -/
inductive OSErr where
  | notADirectory
deriving Repr, DecidableEq

/-- Subprocess invocations issued by `collect_git_info` when the working
directory is a directory: the branch query always runs; the log, status and
remote queries run only when the branch query succeeded. -/
def gitEvents (g : GitEnv) : List Ev :=
  match run_git g.branch_q with
  | none => [Ev.gitCall]
  | some _ => [Ev.gitCall, Ev.gitCall, Ev.gitCall, Ev.gitCall]

/-- `format_summary` with its effects made explicit. When the root is not a
directory, the first effect attempted — the branch query's
`subprocess.run(..., cwd=root)` inside `collect_git_info`, which
`format_summary` calls before either filesystem collector — raises
`NotADirectoryError`: CPython re-raises in the parent the `chdir(cwd)`
failure that occurs in the forked child before `exec`. `iterdir` and
`os.walk` are never reached. (`os.walk` on a non-directory would anyway
yield nothing: it swallows the listing error when no `onerror` handler is
given.) -/
def format_summary_x (env : Env) : Except OSErr String × List Ev :=
  if env.rootIsDir then
    (Except.ok (format_summary env), gitEvents env.git ++ [Ev.listCall, Ev.walkCall])
  else
    (Except.error OSErr.notADirectory, [Ev.gitCall])

/-- How one run of the program terminates. -/
inductive ExitKind where
  | usageError (msg : String)
  | uncaughtOSError (e : OSErr)
  | success (stdout : String)
deriving Repr, DecidableEq

/-- Process exit status: `parser.error` exits 2, an uncaught exception
exits 1, a completed run exits 0. -/
def ExitKind.code : ExitKind → Nat
  | .usageError _ => 2
  | .uncaughtOSError _ => 1
  | .success _ => 0

/-- `main()`: after `expanduser().resolve()` (the resolved string is
`env.root`), if the root does not exist, `parser.error` reports a usage
error and nothing is collected; otherwise the summary is formatted (with
whatever effects that takes) and printed. -/
def Lensy.main (env : Env) : ExitKind × List Ev :=
  if env.rootExists then
    match format_summary_x env with
    | (Except.ok out, evs) => (ExitKind.success out, evs)
    | (Except.error e, evs) => (ExitKind.uncaughtOSError e, evs)
  else
    (ExitKind.usageError ("Path does not exist: " ++ env.root), [])

/-! ## Specification-side definitions

These follow the spec's words, for comparison with the embedded code. -/

/-- Modelled from the spec: "pruning the version-control internal directory
at every level (it is never descended into and never counted at the level
where it appears as a subdirectory entry)" — remove every subdirectory
entry named `".git"`, at every depth. -/
def pruneGitChildren : List (String × FSNode) → List (String × FSNode)
  | [] => []
  | (name, FSNode.file sz) :: rest => (name, FSNode.file sz) :: pruneGitChildren rest
  | (name, FSNode.dir cs) :: rest =>
    if name = ".git" then pruneGitChildren rest
    else (name, FSNode.dir (pruneGitChildren cs)) :: pruneGitChildren rest

/-- Modelled from the spec: "total count of files and total count of
directories encountered across the entire subtree" — with no exclusions. -/
def countAllChildren : List (String × FSNode) → Stats
  | [] => ⟨0, 0⟩
  | (_, FSNode.file _) :: rest =>
    let r := countAllChildren rest
    ⟨r.files + 1, r.dirs⟩
  | (_, FSNode.dir cs) :: rest =>
    let r := countAllChildren rest
    let s := countAllChildren cs
    ⟨r.files + s.files, r.dirs + s.dirs + 1⟩

/-- Modelled from the spec: "if it is a directory, render as `name/`;
otherwise render as `name (X.Y KB)`". -/
def renderEntry (e : String × FSNode) : String :=
  match e.2 with
  | FSNode.dir _ => e.1 ++ "/"
  | FSNode.file sz => e.1 ++ " (" ++ formatKB sz ++ " KB)"

/-- Modelled from the spec: sort the children by name, drop the excluded
`".git"` child, render each remaining entry. -/
def overview_spec (cs : List (String × FSNode)) : List String :=
  ((List.mergeSort cs nameLe).filter (fun e => ¬ e.1 = ".git")).map renderEntry

example : pyStrip "  a b \n" = "a b" := by decide
example : pyOr (some "") "n/a" = "n/a" := by decide
example : formatKB 10 = "0.0" := by decide
example : formatKB 1024 = "1.0" := by decide
example : formatKB 1536 = "1.5" := by decide
example : formatKB 52 = "0.1" := by decide
example : statsList [("a", .file 3), (".git", .dir [("x", .file 1)]),
  ("b", .dir [("c", .file 2), ("d", .dir [])])] = ⟨2, 2⟩ := by simp [statsList]
example : collect_file_overview [("b", .file 10), (".git", .dir []), ("a", .dir [])] =
  ["a/", "b (0.0 KB)"] := by
  simp [collect_file_overview, List.mergeSort, List.merge, nameLe, lexLe, formatKB]
  rfl

/-! ## Helper lemmas -/

theorem lexLe_total : ∀ as bs, lexLe as bs || lexLe bs as := by
  intro as
  induction as with
  | nil => intro bs; simp [lexLe]
  | cons a as ih =>
    intro bs
    cases bs with
    | nil => simp [lexLe]
    | cons b bs =>
      simp only [lexLe]
      by_cases hab : a.toNat < b.toNat <;> by_cases hba : b.toNat < a.toNat <;>
        simp [hab, hba, ih bs]

theorem lexLe_trans : ∀ as bs cs, lexLe as bs → lexLe bs cs → lexLe as cs
  | [], _, _, _, _ => rfl
  | _ :: _, [], _, h, _ => by simp [lexLe] at h
  | _ :: _, _ :: _, [], _, h => by simp [lexLe] at h
  | a :: as, b :: bs, c :: cs, h1, h2 => by
    simp only [lexLe] at h1 h2 ⊢
    rcases Nat.lt_trichotomy a.toNat b.toNat with hab | hab | hab
    · rcases Nat.lt_trichotomy b.toNat c.toNat with hbc | hbc | hbc
      · rw [if_pos (by omega)]
      · rw [if_pos (by omega)]
      · rw [if_neg (by omega), if_pos hbc] at h2
        exact absurd h2 (by simp)
    · rw [if_neg (by omega), if_neg (by omega)] at h1
      rcases Nat.lt_trichotomy b.toNat c.toNat with hbc | hbc | hbc
      · rw [if_pos (by omega)]
      · rw [if_neg (by omega), if_neg (by omega)] at h2
        rw [if_neg (by omega), if_neg (by omega)]
        exact lexLe_trans as bs cs h1 h2
      · rw [if_neg (by omega), if_pos hbc] at h2
        exact absurd h2 (by simp)
    · rw [if_neg (by omega), if_pos hab] at h1
      exact absurd h1 (by simp)

theorem nameLe_total (a b : String × FSNode) : nameLe a b || nameLe b a :=
  lexLe_total a.1.data b.1.data

theorem nameLe_trans (a b c : String × FSNode) :
    nameLe a b → nameLe b c → nameLe a c :=
  lexLe_trans a.1.data b.1.data c.1.data

theorem all_dropWhile (p : α → Bool) (l : List α) :
    (l.dropWhile p).all p = l.all p := by
  induction l with
  | nil => rfl
  | cons a as ih =>
    by_cases h : p a <;> simp [List.dropWhile_cons, h, ih]

theorem strip_eq_nil_iff (p : α → Bool) (l : List α) :
    ((l.dropWhile p).reverse.dropWhile p).reverse = [] ↔ l.all p = true := by
  rw [List.reverse_eq_nil_iff, List.dropWhile_eq_nil_iff, ← all_dropWhile p l]
  simp [List.all_eq_true]

theorem all_strip (p : α → Bool) (l : List α) :
    (((l.dropWhile p).reverse.dropWhile p).reverse).all p = l.all p := by
  rw [List.all_reverse, all_dropWhile, List.all_reverse, all_dropWhile]

theorem pyStrip_data (s : String) :
    (pyStrip s).data =
      ((s.data.dropWhile isPySpace).reverse.dropWhile isPySpace).reverse := rfl

theorem pyStrip_eq_empty_iff (s : String) :
    pyStrip s = "" ↔ s.data.all isPySpace := by
  rw [String.ext_iff]
  exact strip_eq_nil_iff isPySpace s.data

theorem pyStrip_pyStrip_eq_empty_iff (s : String) :
    pyStrip (pyStrip s) = "" ↔ s.data.all isPySpace := by
  rw [pyStrip_eq_empty_iff, pyStrip_data, all_strip]

theorem pyOr_some_empty_dflt (x : String) : pyOr (some x) "" = x := by
  by_cases h : x = "" <;> simp [pyOr, h]

theorem collect_git_info_none (g : GitEnv) (h : g.branch_q = none) :
    collect_git_info g = none := by
  simp [collect_git_info, run_git, h]

theorem collect_git_info_some (g : GitEnv) (b : String) (h : g.branch_q = some b) :
    collect_git_info g = some
      ⟨pyStrip b, pyOr (run_git g.log_q) "n/a",
        decide (¬ pyStrip (pyOr (run_git g.status_q) "") = ""), run_git g.remote_q⟩ := by
  simp [collect_git_info, run_git, h]

theorem dirty_of_status (s : String) :
    decide (¬ pyStrip (pyOr (run_git (some s)) "") = "") = ! s.data.all isPySpace := by
  have hpo : pyOr (run_git (some s)) "" = pyStrip s := by
    simp [run_git, pyOr_some_empty_dflt]
  rw [hpo]
  by_cases h : s.data.all isPySpace = true
  · rw [(pyStrip_pyStrip_eq_empty_iff s).mpr h, h]
    simp
  · have hne : ¬ pyStrip (pyStrip s) = "" :=
      fun hc => h ((pyStrip_pyStrip_eq_empty_iff s).mp hc)
    rw [Bool.not_eq_true] at h
    rw [h]
    simp [hne]

theorem dirty_of_status_fail :
    decide (¬ pyStrip (pyOr (run_git none) "") = "") = false := by decide

theorem head_append (a s : String) {c : Char} (ha : a.data.head? = some c) :
    (a ++ s).data.head? = some c := by
  rw [String.data_append, List.head?_append, ha]
  rfl

theorem ne_of_head_ne {x y : String} {c d : Char} (hx : x.data.head? = some c)
    (hy : y.data.head? = some d) (hcd : c ≠ d) : ¬ x = y := by
  intro h
  rw [h, hy] at hx
  exact hcd (Option.some.inj hx).symm

theorem ne_empty_of_head {x : String} {c : Char} (hx : x.data.head? = some c) :
    ¬ x = "" := by
  intro h
  rw [h] at hx
  simp at hx

theorem overview_loop (l : List (String × FSNode)) (acc : List String) :
    List.foldl
      (fun entries e =>
        if e.1 = ".git" then entries
        else
          match e.2 with
          | FSNode.dir _ => entries ++ [e.1 ++ "/"]
          | FSNode.file size => entries ++ [e.1 ++ " (" ++ formatKB size ++ " KB)"])
      acc l = acc ++ (l.filter (fun e => ¬ e.1 = ".git")).map renderEntry := by
  induction l generalizing acc with
  | nil => simp
  | cons e rest ih =>
    obtain ⟨nm, nd⟩ := e
    by_cases h : nm = ".git"
    · simp [List.foldl_cons, h, ih]
    · cases nd <;> simp [List.foldl_cons, h, ih, renderEntry, List.filter_cons]

theorem collect_file_overview_eq_spec (cs : List (String × FSNode)) :
    collect_file_overview cs = overview_spec cs := by
  unfold collect_file_overview overview_spec
  rw [overview_loop]
  simp

theorem statsList_eq_countAll_prune (cs : List (String × FSNode)) :
    statsList cs = countAllChildren (pruneGitChildren cs) := by
  induction cs using statsList.induct <;>
    simp_all [statsList, pruneGitChildren, countAllChildren]

theorem format_summary_lines_some (gi : GitInfo) (listing : List String)
    (st : Stats) (root : String) :
    format_summary_lines (some gi) listing st root =
      ("Path: " ++ root) ::
      ("Branch: " ++ gi.branch) ::
      ("Latest commit: " ++ gi.latest_commit) ::
      ("Remote: " ++ pyOr gi.remote "n/a") ::
      ("Working tree: " ++ (if gi.dirty then "dirty" else "clean")) ::
      "" ::
      ("Contents: " ++ toString st.files ++ " files in " ++
        toString st.dirs ++ " directories") ::
      listing.map (fun entry => "  - " ++ entry) := rfl

theorem format_summary_lines_none (listing : List String) (st : Stats) (root : String) :
    format_summary_lines none listing st root =
      ("Path: " ++ root) ::
      "Git: n/a (not a repository)" ::
      "" ::
      ("Contents: " ++ toString st.files ++ " files in " ++
        toString st.dirs ++ " directories") ::
      listing.map (fun entry => "  - " ++ entry) := rfl

theorem prefix_not_mem_fallback_lines (env : Env)
    (hg : collect_git_info env.git = none)
    (P : String) (c : Char) (hP : P.data.head? = some c)
    (h1 : c ≠ 'P') (h2 : c ≠ 'G') (h3 : c ≠ 'C') (h4 : c ≠ ' ') :
    ∀ s, ¬ (P ++ s) ∈ summary_lines env := by
  intro s hmem
  rw [summary_lines, hg, format_summary_lines_none] at hmem
  simp only [List.mem_cons, List.mem_map] at hmem
  rcases hmem with h | h | h | h | ⟨e, _, h⟩
  · exact ne_of_head_ne (head_append P s hP) (head_append "Path: " env.root rfl) h1 h
  · exact ne_of_head_ne (head_append P s hP)
      (show ("Git: n/a (not a repository)" : String).data.head? = some 'G' from rfl) h2 h
  · exact ne_empty_of_head (head_append P s hP) h
  · exact ne_of_head_ne (head_append P s hP)
      (head_append _ _ (head_append _ _ (head_append _ _
        (head_append "Contents: " _ rfl)))) h3 h
  · exact ne_of_head_ne (head_append P s hP) (head_append "  - " e rfl) h4 h.symm

/-! ## The claims -/

/-- C1: for every directory tree, the file and directory counts returned by
`collect_stats` equal the unrestricted counts over the tree from which every
`.git` subdirectory has been removed at every depth — so a `.git`
subdirectory is never counted at its level, is never descended into, and
nothing beneath it reaches either total. -/
theorem C1_stats_exclude_git (cs : List (String × FSNode)) :
    collect_stats cs = countAllChildren (pruneGitChildren cs) :=
  statsList_eq_countAll_prune cs

/-- C2: the overview produces exactly one entry line per direct child other
than `".git"`, taken in lexicographic order by name; a directory child is
rendered as `name/` and any other child as `name (X.Y KB)` from its byte
size divided by 1024 to one decimal place (`renderEntry`/`overview_spec`). -/
theorem C2_overview_lines (cs : List (String × FSNode)) :
    collect_file_overview cs = overview_spec cs ∧
    ∃ l, List.Perm l (cs.filter (fun e => ¬ e.1 = ".git")) ∧
      List.Pairwise (fun a b => nameLe a b = true) l ∧
      collect_file_overview cs = l.map renderEntry := by
  refine ⟨collect_file_overview_eq_spec cs,
    (List.mergeSort cs nameLe).filter (fun e => ¬ e.1 = ".git"), ?_, ?_, ?_⟩
  · exact List.Perm.filter _ (List.mergeSort_perm cs nameLe)
  · exact List.Pairwise.sublist (List.filter_sublist _)
      (List.sorted_mergeSort nameLe_trans nameLe_total cs)
  · exact collect_file_overview_eq_spec cs

/-- C3: when the branch query fails, the collector yields no metadata, the
summary contains the literal line `Git: n/a (not a repository)`, and no
branch, latest-commit, remote, or working-tree line appears. -/
theorem C3_no_repo_fallback (env : Env) (h : env.git.branch_q = none) :
    collect_git_info env.git = none ∧
    "Git: n/a (not a repository)" ∈ summary_lines env ∧
    (∀ s, ¬ ("Branch: " ++ s) ∈ summary_lines env) ∧
    (∀ s, ¬ ("Latest commit: " ++ s) ∈ summary_lines env) ∧
    (∀ s, ¬ ("Remote: " ++ s) ∈ summary_lines env) ∧
    (∀ s, ¬ ("Working tree: " ++ s) ∈ summary_lines env) := by
  have hg := collect_git_info_none env.git h
  refine ⟨hg, ?_, ?_, ?_, ?_, ?_⟩
  · rw [summary_lines, hg, format_summary_lines_none]
    simp
  · exact prefix_not_mem_fallback_lines env hg "Branch: " 'B' rfl
      (by decide) (by decide) (by decide) (by decide)
  · exact prefix_not_mem_fallback_lines env hg "Latest commit: " 'L' rfl
      (by decide) (by decide) (by decide) (by decide)
  · exact prefix_not_mem_fallback_lines env hg "Remote: " 'R' rfl
      (by decide) (by decide) (by decide) (by decide)
  · exact prefix_not_mem_fallback_lines env hg "Working tree: " 'W' rfl
      (by decide) (by decide) (by decide) (by decide)

/-- Witness for C3 at a concrete environment outside any repository. -/
theorem C3_no_repo_fallback_witness :
    collect_git_info (Env.mk "/tmp/proj" true true ⟨none, none, none, none⟩
        [("notes.txt", FSNode.file 100)]).git = none ∧
    "Git: n/a (not a repository)" ∈ summary_lines
      (Env.mk "/tmp/proj" true true ⟨none, none, none, none⟩
        [("notes.txt", FSNode.file 100)]) ∧
    (∀ s, ¬ ("Branch: " ++ s) ∈ summary_lines
      (Env.mk "/tmp/proj" true true ⟨none, none, none, none⟩
        [("notes.txt", FSNode.file 100)])) ∧
    (∀ s, ¬ ("Latest commit: " ++ s) ∈ summary_lines
      (Env.mk "/tmp/proj" true true ⟨none, none, none, none⟩
        [("notes.txt", FSNode.file 100)])) ∧
    (∀ s, ¬ ("Remote: " ++ s) ∈ summary_lines
      (Env.mk "/tmp/proj" true true ⟨none, none, none, none⟩
        [("notes.txt", FSNode.file 100)])) ∧
    (∀ s, ¬ ("Working tree: " ++ s) ∈ summary_lines
      (Env.mk "/tmp/proj" true true ⟨none, none, none, none⟩
        [("notes.txt", FSNode.file 100)])) :=
  C3_no_repo_fallback
    (Env.mk "/tmp/proj" true true ⟨none, none, none, none⟩
      [("notes.txt", FSNode.file 100)]) rfl

/-- C4: when the resolved path does not exist, `main` terminates with a
usage error whose message contains the resolved absolute path, the exit
status is non-zero, and no version-control or filesystem collection effect
occurs (the effect trace is empty). -/
theorem C4_missing_path_usage_error (env : Env) (h : env.rootExists = false) :
    Lensy.main env =
      (ExitKind.usageError ("Path does not exist: " ++ env.root), []) ∧
    (Lensy.main env).1.code ≠ 0 ∧
    (∃ pre post, "Path does not exist: " ++ env.root = pre ++ env.root ++ post) ∧
    (Lensy.main env).2 = [] := by
  have hm : Lensy.main env =
      (ExitKind.usageError ("Path does not exist: " ++ env.root), []) := by
    simp [Lensy.main, h]
  refine ⟨hm, ?_, ⟨"Path does not exist: ", "", by simp⟩, by rw [hm]⟩
  rw [hm]
  simp [ExitKind.code]

/-- Witness for C4 at a concrete non-existent path. -/
theorem C4_missing_path_usage_error_witness :
    Lensy.main (Env.mk "/no/such/dir" false false ⟨none, none, none, none⟩ []) =
      (ExitKind.usageError ("Path does not exist: " ++ "/no/such/dir"), []) ∧
    (Lensy.main
      (Env.mk "/no/such/dir" false false ⟨none, none, none, none⟩ [])).1.code ≠ 0 ∧
    (∃ pre post,
      "Path does not exist: " ++ "/no/such/dir" = pre ++ "/no/such/dir" ++ post) ∧
    (Lensy.main (Env.mk "/no/such/dir" false false ⟨none, none, none, none⟩ [])).2 = [] :=
  C4_missing_path_usage_error
    (Env.mk "/no/such/dir" false false ⟨none, none, none, none⟩ []) rfl

/-- C5: inside a repository (branch query succeeds), when the status query
succeeds with raw output `s`, the working-tree line reads `clean` exactly
when `s` has no non-whitespace character, and `dirty` exactly when it has
one. -/
theorem C5_working_tree_line (env : Env) (b s : String)
    (hb : env.git.branch_q = some b) (hs : env.git.status_q = some s) :
    ((summary_lines env)[4]? = some "Working tree: clean" ↔
      s.data.all isPySpace = true) ∧
    ((summary_lines env)[4]? = some "Working tree: dirty" ↔
      s.data.all isPySpace = false) := by
  have hgi := collect_git_info_some env.git b hb
  rw [hs] at hgi
  have hl : (summary_lines env)[4]? =
      some ("Working tree: " ++
        (if ! s.data.all isPySpace then "dirty" else "clean")) := by
    rw [summary_lines, hgi, format_summary_lines_some]
    rw [show (GitInfo.mk (pyStrip b) (pyOr (run_git env.git.log_q) "n/a")
        (decide (¬ pyStrip (pyOr (run_git (some s)) "") = ""))
        (run_git env.git.remote_q)).dirty =
        decide (¬ pyStrip (pyOr (run_git (some s)) "") = "") from rfl,
      dirty_of_status]
    rfl
  rw [hl]
  by_cases hall : s.data.all isPySpace
  · rw [hall]
    simp
  · rw [Bool.not_eq_true] at hall
    rw [hall]
    simp

/-- Witness for C5 at a concrete repository with one modified file in the
status output. -/
theorem C5_working_tree_line_witness :
    ((summary_lines (Env.mk "/repo" true true
        ⟨some "main", some "c1 msg", some " M lensy.py\n", none⟩ []))[4]? =
          some "Working tree: clean" ↔
      (" M lensy.py\n").data.all isPySpace = true) ∧
    ((summary_lines (Env.mk "/repo" true true
        ⟨some "main", some "c1 msg", some " M lensy.py\n", none⟩ []))[4]? =
          some "Working tree: dirty" ↔
      (" M lensy.py\n").data.all isPySpace = false) :=
  C5_working_tree_line
    (Env.mk "/repo" true true ⟨some "main", some "c1 msg", some " M lensy.py\n", none⟩ [])
    "main" " M lensy.py\n" rfl rfl

theorem collect_file_overview_nil : collect_file_overview [] = [] := by
  rw [collect_file_overview, List.mergeSort_nil]
  rfl

theorem collect_stats_nil : collect_stats [] = ⟨0, 0⟩ := by
  simp [collect_stats, statsList]

/-- C6 as stated is false: two runs whose three collected inputs
(version-control metadata, overview listing, stats) agree can still print
different summaries, because the path header line is built from the root
path, which is not one of those three inputs. -/
theorem C6_formatter_counterexample :
    collect_git_info (Env.mk "/a" true true ⟨none, none, none, none⟩ []).git =
      collect_git_info (Env.mk "/b" true true ⟨none, none, none, none⟩ []).git ∧
    collect_file_overview (Env.mk "/a" true true ⟨none, none, none, none⟩ []).fs =
      collect_file_overview (Env.mk "/b" true true ⟨none, none, none, none⟩ []).fs ∧
    collect_stats (Env.mk "/a" true true ⟨none, none, none, none⟩ []).fs =
      collect_stats (Env.mk "/b" true true ⟨none, none, none, none⟩ []).fs ∧
    ¬ format_summary (Env.mk "/a" true true ⟨none, none, none, none⟩ []) =
      format_summary (Env.mk "/b" true true ⟨none, none, none, none⟩ []) := by
  refine ⟨rfl, rfl, rfl, ?_⟩
  intro h
  have ha : format_summary (Env.mk "/a" true true ⟨none, none, none, none⟩ []) =
      "Path: /a\nGit: n/a (not a repository)\n\nContents: 0 files in 0 directories" := by
    rw [format_summary, summary_lines]
    rw [show (Env.mk "/a" true true ⟨none, none, none, none⟩ []).fs =
      ([] : List (String × FSNode)) from rfl]
    rw [collect_file_overview_nil, collect_stats_nil]
    rfl
  have hb : format_summary (Env.mk "/b" true true ⟨none, none, none, none⟩ []) =
      "Path: /b\nGit: n/a (not a repository)\n\nContents: 0 files in 0 directories" := by
    rw [format_summary, summary_lines]
    rw [show (Env.mk "/b" true true ⟨none, none, none, none⟩ []).fs =
      ([] : List (String × FSNode)) from rfl]
    rw [collect_file_overview_nil, collect_stats_nil]
    rfl
  rw [ha, hb] at h
  exact absurd h (by decide)

/-- C6 amended: the formatter is deterministic in the root path together
with the three collected inputs — two runs agreeing on the root path and on
the values of the three collectors print identical summaries. -/
theorem C6_formatter_function_of_inputs (e1 e2 : Env) (hroot : e1.root = e2.root)
    (hgit : collect_git_info e1.git = collect_git_info e2.git)
    (hover : collect_file_overview e1.fs = collect_file_overview e2.fs)
    (hstats : collect_stats e1.fs = collect_stats e2.fs) :
    format_summary e1 = format_summary e2 := by
  rw [format_summary, format_summary, summary_lines, summary_lines,
    hroot, hgit, hover, hstats]

/-- Witness for the amended C6: two environments whose git oracles differ
only in trailing whitespace of the branch output collect to equal inputs
and print the same summary. -/
theorem C6_formatter_function_of_inputs_witness :
    format_summary (Env.mk "/p" true true ⟨some "main\n", none, none, none⟩ []) =
      format_summary (Env.mk "/p" true true ⟨some "main", none, none, none⟩ []) :=
  C6_formatter_function_of_inputs
    (Env.mk "/p" true true ⟨some "main\n", none, none, none⟩ [])
    (Env.mk "/p" true true ⟨some "main", none, none, none⟩ [])
    rfl (by decide) rfl rfl

/-- A fresh repository at `/repo`: branch `main`, one commit, empty status,
no remote; on disk a `.git` directory with internal entries and one tracked
file `README.md` of 10 bytes. -/
def envC7 : Env :=
  ⟨"/repo", true, true, ⟨some "main\n", some "abc1234 init", some "", none⟩,
    [(".git", FSNode.dir
        [("HEAD", FSNode.file 23), ("objects", FSNode.dir [("info", FSNode.dir [])]),
         ("refs", FSNode.dir [("heads", FSNode.dir [("main", FSNode.file 41)])])]),
     ("README.md", FSNode.file 10)]⟩

/-- C7: for the fresh one-file repository `envC7`, the contents line reads
`Contents: 1 files in 0 directories` and the bullet list is exactly the
single line `  - README.md (0.0 KB)`. -/
theorem C7_fresh_repo_example :
    (summary_lines envC7)[6]? = some "Contents: 1 files in 0 directories" ∧
    (summary_lines envC7).drop 7 = ["  - README.md (0.0 KB)"] := by
  have h1 : collect_git_info envC7.git =
      some ⟨"main", "abc1234 init", false, none⟩ := by decide
  have h2 : collect_file_overview envC7.fs = ["README.md (0.0 KB)"] := by
    show collect_file_overview
      [(".git", FSNode.dir
          [("HEAD", FSNode.file 23), ("objects", FSNode.dir [("info", FSNode.dir [])]),
           ("refs", FSNode.dir [("heads", FSNode.dir [("main", FSNode.file 41)])])]),
       ("README.md", FSNode.file 10)] = ["README.md (0.0 KB)"]
    simp [collect_file_overview, List.mergeSort, List.merge, nameLe, lexLe, formatKB]
    rfl
  have h3 : collect_stats envC7.fs = ⟨1, 0⟩ := by
    simp [envC7, collect_stats, statsList]
  rw [summary_lines, h1, h2, h3, format_summary_lines_some]
  exact ⟨rfl, rfl⟩

/-- C8: inside a repository (branch query succeeds) whose remote query
fails, the remote line reads `Remote: n/a`, while the branch, latest-commit
and working-tree lines are still built from their own queries. -/
theorem C8_remote_na (env : Env) (b : String)
    (hb : env.git.branch_q = some b) (hr : env.git.remote_q = none) :
    (∃ gi, collect_git_info env.git = some gi ∧ gi.remote = none ∧
      gi.branch = pyStrip b ∧
      gi.latest_commit = pyOr (run_git env.git.log_q) "n/a") ∧
    (summary_lines env)[3]? = some "Remote: n/a" ∧
    (summary_lines env)[1]? = some ("Branch: " ++ pyStrip b) ∧
    (summary_lines env)[2]? =
      some ("Latest commit: " ++ pyOr (run_git env.git.log_q) "n/a") ∧
    (summary_lines env)[4]? = some ("Working tree: " ++
      (if decide (¬ pyStrip (pyOr (run_git env.git.status_q) "") = "")
        then "dirty" else "clean")) := by
  have hgi := collect_git_info_some env.git b hb
  rw [hr] at hgi
  rw [show run_git none = none from rfl] at hgi
  refine ⟨⟨_, hgi, rfl, rfl, rfl⟩, ?_, ?_, ?_, ?_⟩ <;>
    rw [summary_lines, hgi, format_summary_lines_some] <;> rfl

/-- Witness for C8 at a concrete repository with no remote configured. -/
theorem C8_remote_na_witness :
    (∃ gi, collect_git_info
        (Env.mk "/repo" true true ⟨some "dev", some "beef12 fix", some "", none⟩ []).git =
          some gi ∧ gi.remote = none ∧
      gi.branch = pyStrip "dev" ∧
      gi.latest_commit = pyOr (run_git (Env.mk "/repo" true true
        ⟨some "dev", some "beef12 fix", some "", none⟩ []).git.log_q) "n/a") ∧
    (summary_lines (Env.mk "/repo" true true
      ⟨some "dev", some "beef12 fix", some "", none⟩ []))[3]? = some "Remote: n/a" ∧
    (summary_lines (Env.mk "/repo" true true
      ⟨some "dev", some "beef12 fix", some "", none⟩ []))[1]? =
        some ("Branch: " ++ pyStrip "dev") ∧
    (summary_lines (Env.mk "/repo" true true
      ⟨some "dev", some "beef12 fix", some "", none⟩ []))[2]? =
        some ("Latest commit: " ++ pyOr (run_git (Env.mk "/repo" true true
          ⟨some "dev", some "beef12 fix", some "", none⟩ []).git.log_q) "n/a") ∧
    (summary_lines (Env.mk "/repo" true true
      ⟨some "dev", some "beef12 fix", some "", none⟩ []))[4]? =
        some ("Working tree: " ++
          (if decide (¬ pyStrip (pyOr (run_git (Env.mk "/repo" true true
            ⟨some "dev", some "beef12 fix", some "", none⟩ []).git.status_q) "") = "")
            then "dirty" else "clean")) :=
  C8_remote_na
    (Env.mk "/repo" true true ⟨some "dev", some "beef12 fix", some "", none⟩ [])
    "dev" rfl rfl

/-- C9 as stated is false: with an existing non-directory target, the run
does terminate non-zero through an unhandled filesystem error rather than a
usage error, but the error is raised by the version-control collector's
subprocess invocation (whose working directory is the target), and the
target's children are never listed. -/
theorem C9_counterexample :
    Lensy.main (Env.mk "/tmp/afile" true false ⟨none, none, none, none⟩ []) =
      (ExitKind.uncaughtOSError OSErr.notADirectory, [Ev.gitCall]) ∧
    ¬ Ev.listCall ∈
      (Lensy.main (Env.mk "/tmp/afile" true false ⟨none, none, none, none⟩ [])).2 := by
  have hm : Lensy.main (Env.mk "/tmp/afile" true false ⟨none, none, none, none⟩ []) =
      (ExitKind.uncaughtOSError OSErr.notADirectory, [Ev.gitCall]) := rfl
  exact ⟨hm, by rw [hm]; decide⟩

/-- C9 amended: for every existing non-directory target, validation passes
and collection begins; the program terminates non-zero via the unhandled
`NotADirectoryError` from the version-control collector's first subprocess
invocation — not via a usage error — and the target's children are never
listed. -/
theorem C9_nondir_target_oserror (env : Env) (he : env.rootExists = true)
    (hd : env.rootIsDir = false) :
    Lensy.main env = (ExitKind.uncaughtOSError OSErr.notADirectory, [Ev.gitCall]) ∧
    (Lensy.main env).1.code ≠ 0 ∧
    (∀ m, ¬ (Lensy.main env).1 = ExitKind.usageError m) ∧
    ¬ Ev.listCall ∈ (Lensy.main env).2 := by
  have hm : Lensy.main env =
      (ExitKind.uncaughtOSError OSErr.notADirectory, [Ev.gitCall]) := by
    simp [Lensy.main, format_summary_x, he, hd]
  refine ⟨hm, ?_, ?_, ?_⟩
  · rw [hm]
    simp [ExitKind.code]
  · intro m
    rw [hm]
    simp
  · rw [hm]
    decide

/-- Witness for the amended C9 at a concrete regular-file target. -/
theorem C9_nondir_target_oserror_witness :
    Lensy.main (Env.mk "/etc/passwd" true false ⟨some "main", none, none, none⟩ []) =
      (ExitKind.uncaughtOSError OSErr.notADirectory, [Ev.gitCall]) ∧
    (Lensy.main
      (Env.mk "/etc/passwd" true false ⟨some "main", none, none, none⟩ [])).1.code ≠ 0 ∧
    (∀ m, ¬ (Lensy.main
      (Env.mk "/etc/passwd" true false ⟨some "main", none, none, none⟩ [])).1 =
        ExitKind.usageError m) ∧
    ¬ Ev.listCall ∈ (Lensy.main
      (Env.mk "/etc/passwd" true false ⟨some "main", none, none, none⟩ [])).2 :=
  C9_nondir_target_oserror
    (Env.mk "/etc/passwd" true false ⟨some "main", none, none, none⟩ []) rfl rfl

/-- C10: when the branch query succeeds but the status query fails, the
collector treats the status output as empty: `dirty` is `false`, the
working-tree line reads `clean`, and the whole summary is identical to the
one produced when the status query succeeds with empty output. -/
theorem C10_status_fail_reads_clean (env : Env) (b : String)
    (hb : env.git.branch_q = some b) (hs : env.git.status_q = none) :
    (∃ gi, collect_git_info env.git = some gi ∧ gi.dirty = false) ∧
    (summary_lines env)[4]? = some "Working tree: clean" ∧
    format_summary env = format_summary
      (Env.mk env.root env.rootExists env.rootIsDir
        ⟨env.git.branch_q, env.git.log_q, some "", env.git.remote_q⟩ env.fs) := by
  have hgi := collect_git_info_some env.git b hb
  rw [hs, dirty_of_status_fail] at hgi
  have hgi2 := collect_git_info_some
    ⟨env.git.branch_q, env.git.log_q, some "", env.git.remote_q⟩ b hb
  rw [show decide (¬ pyStrip (pyOr (run_git (some "")) "") = "") = false from by decide]
    at hgi2
  refine ⟨⟨_, hgi, rfl⟩, ?_, ?_⟩
  · rw [summary_lines, hgi, format_summary_lines_some]
    rfl
  · rw [format_summary, format_summary, summary_lines, summary_lines, hgi, hgi2]

/-- Witness for C10 at a concrete repository whose status query fails. -/
theorem C10_status_fail_reads_clean_witness :
    (∃ gi, collect_git_info
        (Env.mk "/r" true true ⟨some "main", some "c1 m", none, none⟩ []).git =
        some gi ∧ gi.dirty = false) ∧
    (summary_lines
      (Env.mk "/r" true true ⟨some "main", some "c1 m", none, none⟩ []))[4]? =
        some "Working tree: clean" ∧
    format_summary (Env.mk "/r" true true ⟨some "main", some "c1 m", none, none⟩ []) =
      format_summary (Env.mk "/r" true true
        ⟨some "main", some "c1 m", some "", none⟩ []) :=
  C10_status_fail_reads_clean
    (Env.mk "/r" true true ⟨some "main", some "c1 m", none, none⟩ []) "main" rfl rfl
